import Mathlib

/-!
Verification of the VPG NIC settings reconciliation engine
(examples/bulk_ip_edit/import_vpg_settings_nics_from_csv.py).

The Python source works over CSV rows (string-keyed dicts of strings) and a
nested JSON settings tree.  The embedding below mirrors it:

* `PyVal` models the Python scalar values `normalize_value` receives
  (None, bool, str, int).
* `Row` models a CSV row: an association list from column name to cell text,
  in column order (Python dicts preserve insertion order).
* The settings tree (`VpgSettings` / `Vm` / `Nic` / `HypCfg` / `IpConfig`)
  mirrors the exported-settings JSON at the granularity the script touches;
  `Option` marks sub-objects and fields that may be absent or null.
-/

/-- Python scalar values seen by `normalize_value`. -/
inductive PyVal where
  | none
  | bool (b : Bool)
  | str (s : String)
  | int (n : Int)
deriving DecidableEq, Repr

/-- Python `str.lower()` on the ASCII text this pipeline handles, written
over the character list (core `String.toLower` maps the same `Char.toLower`,
but through a well-founded recursion that proofs cannot evaluate). -/
def pyLower (s : String) : String := String.mk (s.data.map Char.toLower)

/-- `normalize_value` (lines 163-176).  The membership test
`value in ['', None, 'None', 'null']` matches the empty string, Python `None`
and the two literal texts; Python booleans are not equal to any member of the
list, so they reach the `isinstance(value, bool)` branch.  For a string the
code rebinds `value = value.lower()` before the boolean-literal tests, so the
final `return str(value)` returns the lowercased string. -/
def normalize_value : PyVal → String
  | PyVal.none => ""
  | PyVal.bool b => if b then "true" else "false"
  | PyVal.str s =>
      if s = "" ∨ s = "None" ∨ s = "null" then ""
      else
        let v := pyLower s
        if v = "true" then "true"
        else if v = "false" then "false"
        else v
  | PyVal.int n => toString n

/-- `normalize_value` applied to a CSV cell (always a string in this pipeline). -/
def normalizeStr (s : String) : String := normalize_value (PyVal.str s)

/-- A CSV row: column name to cell text, in column order. -/
def Row : Type := List (String × String)

instance : DecidableEq Row := by unfold Row; infer_instance

instance : Membership (String × String) Row := by unfold Row; infer_instance

/-- `row.get(k)`: the cell of column `k`, or `none` when the column is absent. -/
def rowGet (r : Row) (k : String) : Option String :=
  (List.find? (fun p => p.1 == k) r).map (fun p => p.2)

/-- `row.get(k, d)`: the cell of column `k`, with default `d`. -/
def rowGetD (r : Row) (k : String) (d : String) : String :=
  (rowGet r k).getD d

/-- Python truthiness of `row.get(k)`: `None` and the empty string are falsy,
every other string truthy. -/
def truthy : Option String → Bool
  | Option.none => false
  | Option.some s => s != ""

/-- The identity triple of a row (the code indexes
`row['VPG Name']`, `row['VM Identifier']`, `row['NIC Identifier']` directly;
every row carries the three identity columns). -/
def rowKey (r : Row) : String × String × String :=
  (rowGetD r "VPG Name" "", rowGetD r "VM Identifier" "", rowGetD r "NIC Identifier" "")

/-- The five static-address column suffixes (line 195). -/
def addressFields : List String := ["IP", "Subnet", "Gateway", "DNS1", "DNS2"]

/-- `validate_ip_settings` (lines 192-216).  `role` is the column name
prefixing argument (`'Failover'` or `'Failover Test'`).  `has_static_ip`
uses raw Python truthiness of the cells, not `normalize_value`. -/
def validate_ip_settings (row : Row) (vpg_name vm_name vm_id nic_id role : String) :
    Except String Unit :=
  let should_replace := normalizeStr (rowGetD row (role ++ " ShouldReplaceIpConfiguration") "") == "true"
  let dhcp := normalizeStr (rowGetD row (role ++ " DHCP") "") == "true"
  let has_static_ip := addressFields.any (fun f => truthy (rowGet row (role ++ " " ++ f)))
  if !should_replace && (dhcp || has_static_ip) then
    Except.error ("Invalid configuration for VPG " ++ vpg_name ++ ", VM Name " ++ vm_name ++
      ", VM ID " ++ vm_id ++ ", NIC " ++ nic_id ++ ": " ++ role ++
      " ShouldReplaceIpConfiguration is False but IP settings are present. " ++
      "Set ShouldReplaceIpConfiguration to True to modify IP settings.")
  else if should_replace && !dhcp && !has_static_ip then
    Except.error ("Invalid configuration for VPG " ++ vpg_name ++ ", VM Name " ++ vm_name ++
      ", VM ID " ++ vm_id ++ ", NIC " ++ nic_id ++ ": " ++ role ++
      " ShouldReplaceIpConfiguration is True but no IP configuration is provided. " ++
      "Either set DHCP=True or provide IP configuration (IP, Subnet, Gateway, DNS1, DNS2).")
  else if dhcp && has_static_ip then
    Except.error ("Invalid configuration for VPG " ++ vpg_name ++ ", VM Name " ++ vm_name ++
      ", VM ID " ++ vm_id ++ ", NIC " ++ nic_id ++ ": Cannot have " ++ role ++
      " DHCP=True and static IP settings. " ++
      "Please remove static IP settings or set DHCP=False.")
  else Except.ok ()

/-- `validate_dhcp_settings` (lines 188-220): looks up the VM name through the
client (modelled by `vmNames`) and validates both roles in order. -/
def validate_dhcp_settings (vmNames : String → String) (row : Row)
    (vpg_name vm_id nic_id : String) : Except String Unit :=
  let vm_name := vmNames vm_id
  match validate_ip_settings row vpg_name vm_name vm_id nic_id "Failover" with
  | Except.error e => Except.error e
  | Except.ok _ => validate_ip_settings row vpg_name vm_name vm_id nic_id "Failover Test"

/-- One entry of `compare_settings`' output (lines 257-263): identity triple,
display VM name and the per-field `(field, current, updated)` changes in the
desired row's field order. -/
structure NicChange where
  vpgName : String
  vmIdentifier : String
  nicIdentifier : String
  vmName : String
  changes : List (String × String × String)
deriving DecidableEq, Repr

deriving instance DecidableEq for Except

/-- The `current_lookup` dict comprehension (lines 183-186): keyed by identity
triple; on duplicate keys the last row wins, as in a Python dict build. -/
def current_lookup (current : List Row) (k : String × String × String) : Option Row :=
  current.foldl (fun acc r => if rowKey r = k then Option.some r else acc) Option.none

/-- The per-row field loop of `compare_settings` (lines 239-251): iterate the
desired row's fields, skip the identity columns, report a field whose
normalized values differ, carrying the raw values. -/
def diffRow (current_row updated_row : Row) : List (String × String × String) :=
  updated_row.filterMap (fun p =>
    if p.1 ∈ ["VPG Name", "VM Identifier", "NIC Identifier"] then Option.none
    else
      let current_value := normalizeStr (rowGetD current_row p.1 "")
      let updated_value := normalizeStr (rowGetD updated_row p.1 "")
      if current_value ≠ updated_value then
        Option.some (p.1, rowGetD current_row p.1 "", rowGetD updated_row p.1 "")
      else Option.none)

/-- `compare_settings` (lines 178-265), the loop over desired rows written as
structural recursion (the appended change list becomes a cons in row order).
Each desired row is validated first; the first validation failure aborts with
that error.  A desired row whose key is absent from `current_lookup`
contributes nothing. -/
def compare_settings (vmNames : String → String) (current : List Row) :
    List Row → Except String (List NicChange)
  | [] => Except.ok []
  | updated_row :: rest =>
      match validate_dhcp_settings vmNames updated_row
          (rowGetD updated_row "VPG Name" "")
          (rowGetD updated_row "VM Identifier" "")
          (rowGetD updated_row "NIC Identifier" "") with
      | Except.error e => Except.error e
      | Except.ok _ =>
          match compare_settings vmNames current rest with
          | Except.error e => Except.error e
          | Except.ok restChanges =>
              match current_lookup current (rowKey updated_row) with
              | Option.some current_row =>
                  let row_changes := diffRow current_row updated_row
                  if row_changes = [] then Except.ok restChanges
                  else Except.ok (
                    { vpgName := rowGetD updated_row "VPG Name" ""
                      vmIdentifier := rowGetD updated_row "VM Identifier" ""
                      nicIdentifier := rowGetD updated_row "NIC Identifier" ""
                      vmName := vmNames (rowGetD updated_row "VM Identifier" "")
                      changes := row_changes } :: restChanges)
              | Option.none => Except.ok restChanges

/-! ### The settings tree and the patcher (`update_vpg_settings`, lines 339-514) -/

/-- The `IpConfig` sub-object of a role's hypervisor settings.  In the JSON the
five address fields are strings or null; `IsDhcp` is always set when the
object is present.  The all-defaults value is exactly the dict the patcher
materializes (lines 414-421). -/
structure IpConfig where
  staticIp : Option String := Option.none
  subnetMask : Option String := Option.none
  gateway : Option String := Option.none
  primaryDns : Option String := Option.none
  secondaryDns : Option String := Option.none
  isDhcp : Bool := false
deriving DecidableEq, Repr

/-- The materialization defaults for `IpConfig` (lines 414-421). -/
def defaultIpConfig : IpConfig := {}

/-- The `Hypervisor` sub-object of a role: `NetworkIdentifier`,
`ShouldReplaceIpConfiguration` and `IpConfig`, each possibly absent. -/
structure HypCfg where
  networkIdentifier : Option String := Option.none
  shouldReplaceIpConfiguration : Option Bool := Option.none
  ipConfig : Option IpConfig := Option.none
deriving DecidableEq, Repr

/-- A role container (`Failover` / `FailoverTest`): `{'Hypervisor': ...}`. -/
structure FailCfg where
  hypervisor : HypCfg := {}
deriving DecidableEq, Repr

/-- A NIC of the settings tree; `failover` / `failoverTest` are `none` when
the JSON holds null or omits them. -/
structure Nic where
  nicIdentifier : String
  failover : Option FailCfg := Option.none
  failoverTest : Option FailCfg := Option.none
deriving DecidableEq, Repr

/-- A VM of the settings tree. -/
structure Vm where
  vmIdentifier : String
  nics : List Nic
deriving DecidableEq, Repr

/-- One VPG's settings document, as returned by `get_vpg_settings_by_id`. -/
structure VpgSettings where
  vms : List Vm
deriving DecidableEq, Repr

/-- The `Failover` hypervisor sub-object of a NIC; the patcher indexes
`nic['Failover']['Hypervisor']` directly after `patchNic` has materialized the
container, so the `getD` default is never consulted on the patch path. -/
def nicFailoverHyp (n : Nic) : HypCfg := (n.failover.getD {}).hypervisor

/-- The `FailoverTest` hypervisor sub-object of a NIC. -/
def nicFailoverTestHyp (n : Nic) : HypCfg := (n.failoverTest.getD {}).hypervisor

/-- Write through `nic['Failover']['Hypervisor']`. -/
def modifyFailover (nic : Nic) (f : HypCfg → HypCfg) : Nic :=
  { nic with failover := Option.some { hypervisor := f (nicFailoverHyp nic) } }

/-- Write through `nic['FailoverTest']['Hypervisor']`. -/
def modifyFailoverTest (nic : Nic) (f : HypCfg → HypCfg) : Nic :=
  { nic with failoverTest := Option.some { hypervisor := f (nicFailoverTestHyp nic) } }

/-- `values['updated'] if values['updated'] else None` on a CSV cell. -/
def writeAddr (v : String) : Option String :=
  if v ≠ "" then Option.some v else Option.none

/-- `values['updated'] if values['updated'] else '255.255.255.0'` (lines 446, 496). -/
def writeSubnet (v : String) : String :=
  if v ≠ "" then v else "255.255.255.0"

/-- `if not hyp.get('IpConfig'): hyp['IpConfig'] = {...defaults...}`. -/
def materializeIp (h : HypCfg) : HypCfg :=
  if h.ipConfig = Option.none then { h with ipConfig := Option.some defaultIpConfig } else h

/-- The dhcp-flag write (lines 412-431 and 462-481): materialize `IpConfig`
if absent, set `IsDhcp` to the parsed boolean of the new value, and when that
boolean is true also clear the five address fields to null. -/
def dhcpWrite (h : HypCfg) (v : String) : HypCfg :=
  let h1 := materializeIp h
  let c := h1.ipConfig.getD defaultIpConfig
  let c1 := { c with isDhcp := normalizeStr v == "true" }
  let c2 :=
    if normalizeStr v == "true" then
      { c1 with staticIp := Option.none, subnetMask := Option.none, gateway := Option.none,
                primaryDns := Option.none, secondaryDns := Option.none }
    else c1
  { h1 with ipConfig := Option.some c2 }

/-- The address-field writes of the `Failover` branch (lines 432-452):
materialize `IpConfig` if absent, then set the one named field — new value if
truthy, else null, except the subnet mask whose empty case writes the default
`255.255.255.0`.  The final `else` is unreachable under the caller's field
guard (the five field names are exhaustive there). -/
def addrWriteFailover (h : HypCfg) (field v : String) : HypCfg :=
  let h1 := materializeIp h
  let c := h1.ipConfig.getD defaultIpConfig
  let c1 :=
    if field = "Failover IP" then { c with staticIp := writeAddr v }
    else if field = "Failover Subnet" then { c with subnetMask := Option.some (writeSubnet v) }
    else if field = "Failover Gateway" then { c with gateway := writeAddr v }
    else if field = "Failover DNS1" then { c with primaryDns := writeAddr v }
    else if field = "Failover DNS2" then { c with secondaryDns := writeAddr v }
    else c
  { h1 with ipConfig := Option.some c1 }

/-- The address-field writes of the `Failover Test` branch (lines 482-502). -/
def addrWriteFailoverTest (h : HypCfg) (field v : String) : HypCfg :=
  let h1 := materializeIp h
  let c := h1.ipConfig.getD defaultIpConfig
  let c1 :=
    if field = "Failover Test IP" then { c with staticIp := writeAddr v }
    else if field = "Failover Test Subnet" then { c with subnetMask := Option.some (writeSubnet v) }
    else if field = "Failover Test Gateway" then { c with gateway := writeAddr v }
    else if field = "Failover Test DNS1" then { c with primaryDns := writeAddr v }
    else if field = "Failover Test DNS2" then { c with secondaryDns := writeAddr v }
    else c
  { h1 with ipConfig := Option.some c1 }

/-- The `Failover` field-name guard list (lines 405-407). -/
def failoverFields : List String :=
  ["Failover Network", "Failover ShouldReplaceIpConfiguration", "Failover IP",
   "Failover Subnet", "Failover Gateway", "Failover DNS1", "Failover DNS2",
   "Failover DHCP"]

/-- The `Failover Test` field-name guard list (lines 455-457). -/
def failoverTestFields : List String :=
  ["Failover Test Network", "Failover Test ShouldReplaceIpConfiguration",
   "Failover Test IP", "Failover Test Subnet", "Failover Test Gateway",
   "Failover Test DNS1", "Failover Test DNS2", "Failover Test DHCP"]

/-- One iteration of the per-field loop (lines 403-502): dispatch on the field
name; a field in neither guard list is ignored. -/
def applyFieldChange (nic : Nic) (field v : String) : Nic :=
  if field ∈ failoverFields then
    if field = "Failover ShouldReplaceIpConfiguration" then
      modifyFailover nic (fun h =>
        { h with shouldReplaceIpConfiguration := Option.some (normalizeStr v == "true") })
    else if field = "Failover Network" then
      modifyFailover nic (fun h => { h with networkIdentifier := Option.some v })
    else if field = "Failover DHCP" then
      modifyFailover nic (fun h => dhcpWrite h v)
    else
      modifyFailover nic (fun h => addrWriteFailover h field v)
  else if field ∈ failoverTestFields then
    if field = "Failover Test ShouldReplaceIpConfiguration" then
      modifyFailoverTest nic (fun h =>
        { h with shouldReplaceIpConfiguration := Option.some (normalizeStr v == "true") })
    else if field = "Failover Test Network" then
      modifyFailoverTest nic (fun h => { h with networkIdentifier := Option.some v })
    else if field = "Failover Test DHCP" then
      modifyFailoverTest nic (fun h => dhcpWrite h v)
    else
      modifyFailoverTest nic (fun h => addrWriteFailoverTest h field v)
  else nic

/-- Patching one NIC's change entry (lines 396-502): first materialize absent
`Failover` / `FailoverTest` containers (lines 397-400, unconditionally for
every NIC being patched), then apply each `(field, current, updated)` change
in order, using only the updated value. -/
def patchNic (nic : Nic) (fcs : List (String × String × String)) : Nic :=
  let n1 := if nic.failover = Option.none then { nic with failover := Option.some {} } else nic
  let n2 := if n1.failoverTest = Option.none then { n1 with failoverTest := Option.some {} } else n1
  fcs.foldl (fun n fc => applyFieldChange n fc.1 fc.2.2) n2

/-- The NIC search (lines 385-394): patch the first NIC with the given
identifier, `none` when no NIC matches. -/
def patchNicList : List Nic → String → List (String × String × String) → Option (List Nic)
  | [], _, _ => Option.none
  | n :: rest, nic_id, fcs =>
      if n.nicIdentifier = nic_id then Option.some (patchNic n fcs :: rest)
      else (patchNicList rest nic_id fcs).map (fun l => n :: l)

/-- Outcome of locating and patching one change's VM and NIC. -/
inductive PatchOutcome where
  | ok (vms : List Vm)
  | vmMissing
  | nicMissing
deriving DecidableEq, Repr

/-- The VM search plus NIC patch (lines 372-394): find the first VM with the
given identifier (`break` on first match), then patch its NIC list. -/
def patchVmList : List Vm → String → String → List (String × String × String) → PatchOutcome
  | [], _, _, _ => PatchOutcome.vmMissing
  | vm :: rest, vm_id, nic_id, fcs =>
      if vm.vmIdentifier = vm_id then
        match patchNicList vm.nics nic_id fcs with
        | Option.some nics => PatchOutcome.ok ({ vm with nics := nics } :: rest)
        | Option.none => PatchOutcome.nicMissing
      else
        match patchVmList rest vm_id nic_id fcs with
        | PatchOutcome.ok vms => PatchOutcome.ok (vm :: vms)
        | PatchOutcome.vmMissing => PatchOutcome.vmMissing
        | PatchOutcome.nicMissing => PatchOutcome.nicMissing

/-- The log lines the pass emits for lookup failures and commits
(lines 357, 381, 393, 514). -/
inductive LogEntry where
  | vpgNotFound (vpg : String)
  | vmNotFound (vpg vm : String)
  | nicNotFound (vm nic : String)
  | committed (vpg : String)
deriving DecidableEq, Repr

/-- Apply one change entry to a VPG's settings: a missing VM or NIC is logged
and the change skipped (`continue`, lines 380-382 and 392-394), leaving the
settings untouched. -/
def applyChange (vpg : String) (s : VpgSettings) (c : NicChange) :
    VpgSettings × Option LogEntry :=
  match patchVmList s.vms c.vmIdentifier c.nicIdentifier c.changes with
  | PatchOutcome.ok vms => ({ vms := vms }, Option.none)
  | PatchOutcome.vmMissing => (s, Option.some (LogEntry.vmNotFound vpg c.vmIdentifier))
  | PatchOutcome.nicMissing => (s, Option.some (LogEntry.nicNotFound c.vmIdentifier c.nicIdentifier))

/-- The per-VPG change loop (lines 367-504): apply each change entry in order
to the (draft) settings, collecting the lookup-failure log lines. -/
def processVpg (vpg : String) (s : VpgSettings) : List NicChange → VpgSettings × List LogEntry
  | [] => (s, [])
  | c :: cs =>
      let r := applyChange vpg s c
      let rest := processVpg vpg r.1 cs
      (rest.1, r.2.toList ++ rest.2)

/-- The grouping of changes by VPG name (lines 342-347): a Python dict of
lists, insertion-ordered, appending each change to its VPG's list. -/
def groupByVpg (changes : List NicChange) : List (String × List NicChange) :=
  changes.foldl (fun acc c =>
    if acc.any (fun p => p.1 = c.vpgName) then
      acc.map (fun p => if p.1 = c.vpgName then (p.1, p.2 ++ [c]) else p)
    else acc ++ [(c.vpgName, [c])]) []

/-- The VPG loop (lines 350-514): for each VPG group, look the VPG up
(`env` models `list_vpgs` + `create_vpg_settings` + `get_vpg_settings_by_id`);
an unknown VPG is logged and skipped (`continue`, lines 356-358); otherwise
the group's changes are applied and the draft is written and committed
(modelled by recording the patched settings and a commit log line). -/
def processGroups (env : String → Option VpgSettings) :
    List (String × List NicChange) → List (String × VpgSettings) × List LogEntry
  | [] => ([], [])
  | g :: rest =>
      match env g.1 with
      | Option.none =>
          let r := processGroups env rest
          (r.1, LogEntry.vpgNotFound g.1 :: r.2)
      | Option.some s =>
          let p := processVpg g.1 s g.2
          let r := processGroups env rest
          ((g.1, p.1) :: r.1, p.2 ++ LogEntry.committed g.1 :: r.2)

/-- `update_vpg_settings` (lines 339-514): group the approved changes by VPG
and process each group; the first output component lists the settings
committed per VPG, the second the log of lookup failures and commits. -/
def update_vpg_settings (env : String → Option VpgSettings) (changes : List NicChange) :
    List (String × VpgSettings) × List LogEntry :=
  processGroups env (groupByVpg changes)

/-- The reconciliation segment of `main` (lines 547-576): compare, and on a
validation `ValueError` print and return without touching anything; otherwise
apply the changes only when they are non-empty and the operator confirms.
The boolean reports whether `update_vpg_settings` was invoked. -/
def runPass (vmNames : String → String) (env : String → Option VpgSettings)
    (current updated : List Row) (confirm : Bool) :
    (List (String × VpgSettings) × List LogEntry) × Bool :=
  match compare_settings vmNames current updated with
  | Except.error _ => (([], []), false)
  | Except.ok changes =>
      if changes = [] then (([], []), false)
      else if confirm then (update_vpg_settings env changes, true)
      else (([], []), false)

/-! ### Helper lemmas -/

theorem materializeIp_ipConfig (h : HypCfg) :
    (materializeIp h).ipConfig = Option.some (h.ipConfig.getD defaultIpConfig) := by
  unfold materializeIp
  cases hc : h.ipConfig <;> simp [hc]

theorem nicFailoverHyp_modifyFailover (nic : Nic) (f : HypCfg → HypCfg) :
    nicFailoverHyp (modifyFailover nic f) = f (nicFailoverHyp nic) := rfl

theorem nicFailoverTestHyp_modifyFailoverTest (nic : Nic) (f : HypCfg → HypCfg) :
    nicFailoverTestHyp (modifyFailoverTest nic f) = f (nicFailoverTestHyp nic) := rfl

theorem dhcpWrite_ipConfig (h : HypCfg) (v : String) :
    (dhcpWrite h v).ipConfig =
      Option.some (if normalizeStr v == "true" then { defaultIpConfig with isDhcp := true }
        else { h.ipConfig.getD defaultIpConfig with isDhcp := false }) := by
  unfold dhcpWrite
  cases hb : (normalizeStr v == "true") <;>
    simp [hb, materializeIp_ipConfig, defaultIpConfig]

/-! ### Claim C5: `normalize_value` -/

/-- C5, counterexample: the claim states that a non-boolean-like string is
compared as-is and never case-folded, but `normalize_value` lowercases every
string it returns: `'Abc'` normalizes to `'abc'`, not to itself. -/
theorem c5_counterexample :
    normalize_value (PyVal.str "Abc") = "abc" ∧
    normalize_value (PyVal.str "Abc") ≠ "Abc" ∧
    normalize_value (PyVal.str "ABC") = normalize_value (PyVal.str "abc") := by
  decide

/-- C5 (amended): `normalize_value` maps `''`, `None`, the literal `'None'`
and the literal `'null'` to the empty value; maps booleans to lowercase
`'true'`/`'false'` (and agrees with normalizing `str(b).lower()`); compares
boolean-like text case-insensitively; maps a non-string value to its string
form; and maps every other string to its lowercase form (all strings are
case-folded, not only boolean-like text). -/
theorem c5_normalize_spec :
    (normalize_value (PyVal.str "") = "" ∧ normalize_value PyVal.none = "" ∧
     normalize_value (PyVal.str "None") = "" ∧ normalize_value (PyVal.str "null") = "") ∧
    (∀ b : Bool, normalize_value (PyVal.bool b) =
        normalize_value (PyVal.str (pyLower (if b then "True" else "False")))) ∧
    (∀ s : String, (pyLower s = "true" ∨ pyLower s = "false") →
        normalize_value (PyVal.str s) = pyLower s) ∧
    (∀ n : Int, normalize_value (PyVal.int n) = toString n) ∧
    (∀ s : String, ¬(s = "" ∨ s = "None" ∨ s = "null") →
        normalize_value (PyVal.str s) =
          (if pyLower s = "true" then "true"
           else if pyLower s = "false" then "false" else pyLower s)) := by
  refine ⟨⟨by decide, rfl, by decide, by decide⟩, ?_, ?_, fun n => rfl, ?_⟩
  · intro b
    cases b <;> decide
  · intro s hs
    have hne : ¬(s = "" ∨ s = "None" ∨ s = "null") := by
      rintro (rfl | rfl | rfl) <;> revert hs <;> decide
    simp only [normalize_value, if_neg hne]
    rcases hs with h | h <;> rw [h] <;> simp
  · intro s hs
    simp only [normalize_value, if_neg hs]

/-! ### Claim C6: the dhcp-flag write -/

/-- C6: processing a dhcp-flag change for either role materializes the role's
`ip_config` (dhcp=false, all address fields null) when absent, sets `IsDhcp`
to the parsed boolean of the new value, and — whenever the new value
normalizes to true — clears all five address fields to null in the same step
(the result is then exactly the default config with `IsDhcp := true`). -/
theorem c6_dhcp_write_spec :
    ∀ (nic : Nic) (v : String),
      (nicFailoverHyp (applyFieldChange nic "Failover DHCP" v)).ipConfig =
        Option.some (if normalizeStr v == "true" then { defaultIpConfig with isDhcp := true }
          else { (nicFailoverHyp nic).ipConfig.getD defaultIpConfig with isDhcp := false }) ∧
      (nicFailoverTestHyp (applyFieldChange nic "Failover Test DHCP" v)).ipConfig =
        Option.some (if normalizeStr v == "true" then { defaultIpConfig with isDhcp := true }
          else { (nicFailoverTestHyp nic).ipConfig.getD defaultIpConfig with isDhcp := false }) := by
  intro nic v
  constructor
  · show (nicFailoverHyp (modifyFailover nic (fun h => dhcpWrite h v))).ipConfig = _
    rw [nicFailoverHyp_modifyFailover, dhcpWrite_ipConfig]
  · show (nicFailoverTestHyp (modifyFailoverTest nic (fun h => dhcpWrite h v))).ipConfig = _
    rw [nicFailoverTestHyp_modifyFailoverTest, dhcpWrite_ipConfig]

/-! ### Claim C2: the validation rules -/

/-- C2: for every desired record and role, validation fails (raises) exactly
when one of the three rules fires, with `replace` and `dhcp` read through
normalization and `has_static` the raw non-emptiness of some of the five
address cells. -/
theorem c2_validate_iff :
    ∀ (row : Row) (vpg_name vm_name vm_id nic_id role : String),
      validate_ip_settings row vpg_name vm_name vm_id nic_id role ≠ Except.ok () ↔
        (let replace := normalizeStr (rowGetD row (role ++ " ShouldReplaceIpConfiguration") "") = "true"
         let dhcp := normalizeStr (rowGetD row (role ++ " DHCP") "") = "true"
         let has_static :=
           truthy (rowGet row (role ++ " IP")) = true ∨
           truthy (rowGet row (role ++ " Subnet")) = true ∨
           truthy (rowGet row (role ++ " Gateway")) = true ∨
           truthy (rowGet row (role ++ " DNS1")) = true ∨
           truthy (rowGet row (role ++ " DNS2")) = true
         (¬replace ∧ (dhcp ∨ has_static)) ∨
         (replace ∧ ¬dhcp ∧ ¬has_static) ∨
         (dhcp ∧ has_static)) := by
  intro row vpg_name vm_name vm_id nic_id role
  have ha : ∀ f : String, role ++ " " ++ f = role ++ (" " ++ f) := fun f =>
    String.append_assoc role " " f
  have hIP : (" " ++ "IP" : String) = " IP" := by decide
  have hSub : (" " ++ "Subnet" : String) = " Subnet" := by decide
  have hGw : (" " ++ "Gateway" : String) = " Gateway" := by decide
  have hD1 : (" " ++ "DNS1" : String) = " DNS1" := by decide
  have hD2 : (" " ++ "DNS2" : String) = " DNS2" := by decide
  simp only [validate_ip_settings, addressFields, List.any_cons, List.any_nil, Bool.or_false,
    ha, hIP, hSub, hGw, hD1, hD2]
  split_ifs with h1 h2 h3 <;>
    simp_all [Bool.and_eq_true, Bool.or_eq_true, Bool.not_eq_true', beq_iff_eq,
      Bool.not_eq_true]

/-! ### Claim C9: `has_static` uses raw truthiness, not normalization -/

/-- C9, counterexample: the claim asserts normalization treats the literal
text `'False'` as empty, but `normalize_value` maps it to `'false'`, which is
not the empty value. -/
theorem c9_counterexample :
    normalize_value (PyVal.str "False") = "false" ∧
    normalize_value (PyVal.str "False") ≠ "" := by decide

/-- A desired record whose only role data is a raw `Failover IP` cell. -/
def c9row (s : String) : Row :=
  [("VPG Name", "vpg1"), ("VM Identifier", "vm1"), ("NIC Identifier", "nic1"),
   ("Failover IP", s)]

/-- A desired record with consent and DHCP set, plus a raw `Failover IP` cell. -/
def c9rowDhcp (s : String) : Row :=
  [("VPG Name", "vpg1"), ("VM Identifier", "vm1"), ("NIC Identifier", "nic1"),
   ("Failover ShouldReplaceIpConfiguration", "True"), ("Failover DHCP", "True"),
   ("Failover IP", s)]

/-- C9 (amended): the validator computes `has_static` from the raw truthiness
of the five address cells, so every non-empty raw string — including `'None'`
and `'null'`, which normalization maps to the empty value, and `'False'`,
which it maps to `'false'` — counts as static address data: it fires rule 1
when the replace-gate is off, and rule 3 when DHCP is on. -/
theorem c9_raw_truthiness :
    ∀ s : String, s ≠ "" →
      validate_ip_settings (c9row s) "vpg1" "vmA" "vm1" "nic1" "Failover" ≠ Except.ok () ∧
      validate_ip_settings (c9rowDhcp s) "vpg1" "vmA" "vm1" "nic1" "Failover" ≠ Except.ok () ∧
      normalizeStr "None" = "" ∧ normalizeStr "null" = "" := by
  intro s hs
  have hb : (s != "") = true := by simpa [bne] using hs
  have hT : pyLower "True" = "true" := by decide
  refine ⟨?_, ?_, by decide, by decide⟩
  · simp [validate_ip_settings, c9row, rowGet, rowGetD, addressFields, truthy,
      normalizeStr, normalize_value, List.find?, hb, hT]
  · simp [validate_ip_settings, c9rowDhcp, rowGet, rowGetD, addressFields, truthy,
      normalizeStr, normalize_value, List.find?, hb, hT]

/-- C9, witness: the literal text `'None'` in the IP column triggers both
rules, while normalization maps it to the empty value. -/
theorem c9_raw_truthiness_witness :
    ("None" : String) ≠ "" ∧
    (validate_ip_settings (c9row "None") "vpg1" "vmA" "vm1" "nic1" "Failover" ≠ Except.ok () ∧
     validate_ip_settings (c9rowDhcp "None") "vpg1" "vmA" "vm1" "nic1" "Failover" ≠ Except.ok () ∧
     normalizeStr "None" = "" ∧ normalizeStr "null" = "") :=
  ⟨by decide, c9_raw_truthiness "None" (by decide)⟩

/-! ### Claims C1 and C10: coverage and field iteration of the diff -/

/-- What `compare_settings` reports, for both directions: every output entry
comes from a desired row whose key has a current match and a non-empty diff,
and every desired row with a current match and a non-empty diff yields an
output entry. -/
theorem compare_ok_spec (vmNames : String → String) (current : List Row) :
    ∀ (updated : List Row) (result : List NicChange),
      compare_settings vmNames current updated = Except.ok result →
      (∀ ch ∈ result, ∃ upd ∈ updated,
          ch.vpgName = rowGetD upd "VPG Name" "" ∧
          ch.vmIdentifier = rowGetD upd "VM Identifier" "" ∧
          ch.nicIdentifier = rowGetD upd "NIC Identifier" "" ∧
          ∃ cur, current_lookup current (rowKey upd) = Option.some cur ∧
            ch.changes = diffRow cur upd ∧ ch.changes ≠ []) ∧
      (∀ upd ∈ updated, ∀ cur, current_lookup current (rowKey upd) = Option.some cur →
          diffRow cur upd ≠ [] →
          ∃ ch ∈ result, ch.vpgName = rowGetD upd "VPG Name" "" ∧
            ch.vmIdentifier = rowGetD upd "VM Identifier" "" ∧
            ch.nicIdentifier = rowGetD upd "NIC Identifier" "") := by
  intro updated
  induction updated with
  | nil =>
      intro result h
      simp only [compare_settings] at h
      injection h with h
      subst h
      exact ⟨by simp, by simp⟩
  | cons upd rest ih =>
      intro result h
      simp only [compare_settings] at h
      split at h
      next e hv => exact absurd h (by simp)
      next u hv =>
        split at h
        next e hr => exact absurd h (by simp)
        next restChanges hr =>
          obtain ⟨ih1, ih2⟩ := ih restChanges hr
          split at h
          next cur0 hl =>
            split at h
            next hd =>
              injection h with h
              subst h
              refine ⟨?_, ?_⟩
              · intro ch hch
                obtain ⟨u', hu', hp⟩ := ih1 ch hch
                exact ⟨u', List.mem_cons_of_mem _ hu', hp⟩
              · intro u' hu' cur hcur hdiff
                rcases List.mem_cons.mp hu' with rfl | hu'
                · rw [hl] at hcur
                  injection hcur with hcur
                  subst hcur
                  exact absurd hd hdiff
                · exact ih2 u' hu' cur hcur hdiff
            next hd =>
              injection h with h
              subst h
              refine ⟨?_, ?_⟩
              · intro ch hch
                rcases List.mem_cons.mp hch with rfl | hch
                · exact ⟨upd, List.mem_cons_self _ _, rfl, rfl, rfl, cur0, hl, rfl, hd⟩
                · obtain ⟨u', hu', hp⟩ := ih1 ch hch
                  exact ⟨u', List.mem_cons_of_mem _ hu', hp⟩
              · intro u' hu' cur hcur hdiff
                rcases List.mem_cons.mp hu' with rfl | hu'
                · exact ⟨_, List.mem_cons_self _ _, rfl, rfl, rfl⟩
                · obtain ⟨ch, hch, hp⟩ := ih2 u' hu' cur hcur hdiff
                  exact ⟨ch, List.mem_cons_of_mem _ hch, hp⟩
          next hl =>
            injection h with h
            subst h
            refine ⟨?_, ?_⟩
            · intro ch hch
              obtain ⟨u', hu', hp⟩ := ih1 ch hch
              exact ⟨u', List.mem_cons_of_mem _ hu', hp⟩
            · intro u' hu' cur hcur hdiff
              rcases List.mem_cons.mp hu' with rfl | hu'
              · rw [hl] at hcur
                cases hcur
              · exact ih2 u' hu' cur hcur hdiff

/-- A current row for the diff examples. -/
def exCurRow : Row :=
  [("VPG Name", "vpg1"), ("VM Identifier", "vm1"), ("NIC Identifier", "nic1"),
   ("Failover Network", "netA"), ("Failover ShouldReplaceIpConfiguration", "False"),
   ("Failover DHCP", "False")]

/-- A desired row matching `exCurRow`'s identity with one changed field. -/
def exUpdRow : Row :=
  [("VPG Name", "vpg1"), ("VM Identifier", "vm1"), ("NIC Identifier", "nic1"),
   ("Failover Network", "netB"), ("Failover ShouldReplaceIpConfiguration", "False"),
   ("Failover DHCP", "False")]

/-- A fixed VM-name lookup for the examples. -/
def exVmNames : String → String := fun _ => "vmA"

/-- The change set `compare_settings` reports for the example rows. -/
def exResult : List NicChange :=
  [{ vpgName := "vpg1", vmIdentifier := "vm1", nicIdentifier := "nic1", vmName := "vmA",
     changes := [("Failover Network", "netA", "netB")] }]

/-- A valid desired row whose identity triple appears in no current row. -/
def c1row : Row :=
  [("VPG Name", "vpg1"), ("VM Identifier", "vm1"), ("NIC Identifier", "nic1"),
   ("Failover ShouldReplaceIpConfiguration", "True"), ("Failover DHCP", "True")]

/-- C1, counterexample: a desired identity triple that is absent from the
current set yields no output entry at all — the code only compares keys found
in `current_lookup` — so the Change Set does not report the desired row's
fields as new-valued changes, contradicting the claim. -/
theorem c1_counterexample :
    compare_settings exVmNames [] [c1row] = Except.ok [] ∧
    rowKey c1row = ("vpg1", "vm1", "nic1") ∧
    current_lookup [] (rowKey c1row) = Option.none := by decide

/-- C1 (amended): the Change Set covers exactly those identity triples that
are present in the desired set AND have a matching current row AND whose diff
is non-empty; a desired triple absent from the current set is skipped and
produces no entry. -/
theorem c1_coverage :
    ∀ (vmNames : String → String) (current updated : List Row) (result : List NicChange),
      compare_settings vmNames current updated = Except.ok result →
      ((∀ ch ∈ result, ∃ upd ∈ updated,
          (ch.vpgName, ch.vmIdentifier, ch.nicIdentifier) = rowKey upd ∧
          ∃ cur, current_lookup current (rowKey upd) = Option.some cur ∧
            ch.changes = diffRow cur upd ∧ ch.changes ≠ []) ∧
       (∀ upd ∈ updated, ∀ cur, current_lookup current (rowKey upd) = Option.some cur →
          diffRow cur upd ≠ [] →
          ∃ ch ∈ result, (ch.vpgName, ch.vmIdentifier, ch.nicIdentifier) = rowKey upd) ∧
       (∀ upd ∈ updated, current_lookup current (rowKey upd) = Option.none →
          ∀ ch ∈ result, (ch.vpgName, ch.vmIdentifier, ch.nicIdentifier) ≠ rowKey upd)) := by
  intro vmNames current updated result h
  obtain ⟨h1, h2⟩ := compare_ok_spec vmNames current updated result h
  refine ⟨?_, ?_, ?_⟩
  · intro ch hch
    obtain ⟨upd, hu, e1, e2, e3, cur, hcur, hce, hne⟩ := h1 ch hch
    exact ⟨upd, hu, by rw [rowKey, e1, e2, e3], cur, hcur, hce, hne⟩
  · intro upd hu cur hcur hdiff
    obtain ⟨ch, hch, e1, e2, e3⟩ := h2 upd hu cur hcur hdiff
    exact ⟨ch, hch, by rw [rowKey, e1, e2, e3]⟩
  · intro upd hu hnone ch hch hkey
    obtain ⟨upd', hu', e1, e2, e3, cur, hcur, _, _⟩ := h1 ch hch
    have hkk : rowKey upd = rowKey upd' := by
      rw [← hkey, rowKey, e1, e2, e3]
    rw [← hkk] at hcur
    rw [hnone] at hcur
    cases hcur

/-- C1, witness: the amended coverage at a concrete pair of record sets with
one matched identity and one changed field. -/
theorem c1_coverage_witness :
    compare_settings exVmNames [exCurRow] [exUpdRow] = Except.ok exResult ∧
    ((∀ ch ∈ exResult, ∃ upd ∈ [exUpdRow],
        (ch.vpgName, ch.vmIdentifier, ch.nicIdentifier) = rowKey upd ∧
        ∃ cur, current_lookup [exCurRow] (rowKey upd) = Option.some cur ∧
          ch.changes = diffRow cur upd ∧ ch.changes ≠ []) ∧
     (∀ upd ∈ [exUpdRow], ∀ cur, current_lookup [exCurRow] (rowKey upd) = Option.some cur →
        diffRow cur upd ≠ [] →
        ∃ ch ∈ exResult, (ch.vpgName, ch.vmIdentifier, ch.nicIdentifier) = rowKey upd) ∧
     (∀ upd ∈ [exUpdRow], current_lookup [exCurRow] (rowKey upd) = Option.none →
        ∀ ch ∈ exResult, (ch.vpgName, ch.vmIdentifier, ch.nicIdentifier) ≠ rowKey upd)) :=
  ⟨by decide, c1_coverage exVmNames [exCurRow] [exUpdRow] exResult (by decide)⟩

/-- Every reported change of a row diff names a field of the desired row and
never an identity column. -/
theorem diffRow_field_mem (cur upd : Row) :
    ∀ fc ∈ diffRow cur upd, (∃ v, (fc.1, v) ∈ upd) ∧
      fc.1 ∉ (["VPG Name", "VM Identifier", "NIC Identifier"] : List String) := by
  intro fc hfc
  simp only [diffRow] at hfc
  rw [List.mem_filterMap] at hfc
  obtain ⟨p, hp, hpeq⟩ := hfc
  by_cases hid : p.1 ∈ (["VPG Name", "VM Identifier", "NIC Identifier"] : List String)
  · rw [if_pos hid] at hpeq; cases hpeq
  · rw [if_neg hid] at hpeq
    by_cases hne : normalizeStr (rowGetD cur p.1 "") ≠ normalizeStr (rowGetD upd p.1 "")
    · rw [if_pos hne] at hpeq
      injection hpeq with h
      subst h
      exact ⟨⟨p.2, hp⟩, hid⟩
    · rw [if_neg hne] at hpeq; cases hpeq

/-- C10: the diff iterates only over the fields present in the desired row —
every reported change of every output entry names a column of the matched
desired row (and never an identity column), so a field present only in the
current row is never compared or reported. -/
theorem c10_diff_fields_from_desired :
    ∀ (vmNames : String → String) (current updated : List Row) (result : List NicChange),
      compare_settings vmNames current updated = Except.ok result →
      ∀ ch ∈ result, ∃ upd ∈ updated,
        (ch.vpgName, ch.vmIdentifier, ch.nicIdentifier) = rowKey upd ∧
        ∀ fc ∈ ch.changes,
          (∃ v, (fc.1, v) ∈ upd) ∧
          fc.1 ∉ (["VPG Name", "VM Identifier", "NIC Identifier"] : List String) := by
  intro vmNames current updated result h ch hch
  obtain ⟨h1, _⟩ := compare_ok_spec vmNames current updated result h
  obtain ⟨upd, hu, e1, e2, e3, cur, hcur, hce, _⟩ := h1 ch hch
  refine ⟨upd, hu, by rw [rowKey, e1, e2, e3], ?_⟩
  intro fc hfc
  rw [hce] at hfc
  exact diffRow_field_mem cur upd fc hfc

/-- C10, witness: the field-iteration property at the concrete example pair. -/
theorem c10_diff_fields_witness :
    compare_settings exVmNames [exCurRow] [exUpdRow] = Except.ok exResult ∧
    (∀ ch ∈ exResult, ∃ upd ∈ [exUpdRow],
        (ch.vpgName, ch.vmIdentifier, ch.nicIdentifier) = rowKey upd ∧
        ∀ fc ∈ ch.changes,
          (∃ v, (fc.1, v) ∈ upd) ∧
          fc.1 ∉ (["VPG Name", "VM Identifier", "NIC Identifier"] : List String)) :=
  ⟨by decide, c10_diff_fields_from_desired exVmNames [exCurRow] [exUpdRow] exResult (by decide)⟩

/-! ### Claim C4: a validation failure aborts before any mutation -/

/-- When some desired row fails validation, `compare_settings` returns the
(first such) error: the loop validates every desired row before trusting its
diff, and a raised `ValueError` propagates out. -/
theorem compare_error_of_invalid (vmNames : String → String) (current : List Row) :
    ∀ updated : List Row,
      (∃ r ∈ updated, validate_dhcp_settings vmNames r (rowGetD r "VPG Name" "")
          (rowGetD r "VM Identifier" "") (rowGetD r "NIC Identifier" "") ≠ Except.ok ()) →
      ∃ e, compare_settings vmNames current updated = Except.error e := by
  intro updated
  induction updated with
  | nil =>
      rintro ⟨r, hr, _⟩
      cases hr
  | cons upd rest ih =>
      rintro ⟨r, hr, hbad⟩
      cases hv : validate_dhcp_settings vmNames upd (rowGetD upd "VPG Name" "")
          (rowGetD upd "VM Identifier" "") (rowGetD upd "NIC Identifier" "") with
      | error e =>
          exact ⟨e, by simp only [compare_settings]; rw [hv]⟩
      | ok u =>
          rcases List.mem_cons.mp hr with rfl | hr
          · cases u
            exact absurd hv hbad
          · obtain ⟨e, he⟩ := ih ⟨r, hr, hbad⟩
            exact ⟨e, by simp only [compare_settings]; rw [hv, he]⟩

/-- C4: when some desired record violates a validation rule, the pass aborts
inside the diff phase with zero side effects: `compare_settings` returns the
error, `runPass` commits nothing, emits no patch log, and never invokes
`update_vpg_settings`. -/
theorem c4_validation_aborts :
    ∀ (vmNames : String → String) (env : String → Option VpgSettings)
      (current updated : List Row) (confirm : Bool),
      (∃ r ∈ updated, validate_dhcp_settings vmNames r (rowGetD r "VPG Name" "")
          (rowGetD r "VM Identifier" "") (rowGetD r "NIC Identifier" "") ≠ Except.ok ()) →
      (∃ e, compare_settings vmNames current updated = Except.error e) ∧
      runPass vmNames env current updated confirm = (([], []), false) := by
  intro vmNames env current updated confirm hbad
  obtain ⟨e, he⟩ := compare_error_of_invalid vmNames current updated hbad
  exact ⟨⟨e, he⟩, by simp only [runPass]; rw [he]⟩

/-- A desired row that violates rule 1: DHCP requested with the replace-gate
off. -/
def c4badRow : Row :=
  [("VPG Name", "vpg1"), ("VM Identifier", "vm1"), ("NIC Identifier", "nic1"),
   ("Failover DHCP", "True")]

/-- C4, witness: the abort at a concrete invalid record set. -/
theorem c4_validation_aborts_witness :
    (∃ r ∈ [c4badRow], validate_dhcp_settings exVmNames r (rowGetD r "VPG Name" "")
        (rowGetD r "VM Identifier" "") (rowGetD r "NIC Identifier" "") ≠ Except.ok ()) ∧
    ((∃ e, compare_settings exVmNames [exCurRow] [c4badRow] = Except.error e) ∧
     runPass exVmNames (fun _ => Option.none) [exCurRow] [c4badRow] true = (([], []), false)) :=
  ⟨by decide, c4_validation_aborts exVmNames (fun _ => Option.none) [exCurRow] [c4badRow] true
    (by decide)⟩

/-! ### Claim C3: frame of the tree patch -/

/-- Decomposition of a successful NIC-list patch: the first NIC with the
given identifier is replaced by its patched version, every other NIC is the
same object. -/
theorem patchNicList_eq (nic_id : String) (fcs : List (String × String × String)) :
    ∀ (nics nics' : List Nic), patchNicList nics nic_id fcs = Option.some nics' →
      ∃ pre n post, nics = pre ++ n :: post ∧ (∀ m ∈ pre, m.nicIdentifier ≠ nic_id) ∧
        n.nicIdentifier = nic_id ∧ nics' = pre ++ patchNic n fcs :: post := by
  intro nics
  induction nics with
  | nil => intro nics' h; simp [patchNicList] at h
  | cons n rest ih =>
      intro nics' h
      simp only [patchNicList] at h
      by_cases hn : n.nicIdentifier = nic_id
      · rw [if_pos hn] at h
        injection h with h
        exact ⟨[], n, rest, rfl, by simp, hn, by rw [← h]; rfl⟩
      · rw [if_neg hn] at h
        cases hrec : patchNicList rest nic_id fcs with
        | none => rw [hrec] at h; cases h
        | some l =>
            rw [hrec, Option.map_some'] at h
            injection h with h
            obtain ⟨pre, n0, post, he, hpre, hn0, hl⟩ := ih l hrec
            refine ⟨n :: pre, n0, post, by rw [he]; rfl, ?_, hn0, by rw [← h, hl]; rfl⟩
            intro m hm
            rcases List.mem_cons.mp hm with rfl | hm
            · exact hn
            · exact hpre m hm

/-- Decomposition of a successful VM-list patch: the first VM with the given
identifier has its NIC list patched, every other VM is the same object. -/
theorem patchVmList_eq (vm_id nic_id : String) (fcs : List (String × String × String)) :
    ∀ (vms vms' : List Vm), patchVmList vms vm_id nic_id fcs = PatchOutcome.ok vms' →
      ∃ preV vm postV nics', vms = preV ++ vm :: postV ∧
        (∀ w ∈ preV, w.vmIdentifier ≠ vm_id) ∧ vm.vmIdentifier = vm_id ∧
        patchNicList vm.nics nic_id fcs = Option.some nics' ∧
        vms' = preV ++ { vm with nics := nics' } :: postV := by
  intro vms
  induction vms with
  | nil => intro vms' h; simp [patchVmList] at h
  | cons vm rest ih =>
      intro vms' h
      simp only [patchVmList] at h
      split at h
      next hv =>
        split at h
        next nics hn =>
          injection h with h
          exact ⟨[], vm, rest, nics, rfl, by simp, hv, hn, by rw [← h]; rfl⟩
        next hn => cases h
      next hv =>
        split at h
        next vms0 hrec =>
          injection h with h
          obtain ⟨preV, vm0, postV, nics', he, hpre, hv0, hn, hl⟩ := ih vms0 hrec
          refine ⟨vm :: preV, vm0, postV, nics', by rw [he]; rfl, ?_, hv0, hn,
            by rw [← h, hl]; rfl⟩
          intro w hw
          rcases List.mem_cons.mp hw with rfl | hw
          · exact hv
          · exact hpre w hw
        next hrec => cases h
        next hrec => cases h

/-- A single field write never changes the NIC identifier. -/
theorem applyFieldChange_nicIdentifier (nic : Nic) (field v : String) :
    (applyFieldChange nic field v).nicIdentifier = nic.nicIdentifier := by
  unfold applyFieldChange modifyFailover modifyFailoverTest
  split_ifs <;> rfl

/-- A field write whose name is not a `Failover Test` field leaves the
`FailoverTest` container untouched. -/
theorem applyFieldChange_failoverTest (nic : Nic) (field v : String)
    (h : field ∉ failoverTestFields) :
    (applyFieldChange nic field v).failoverTest = nic.failoverTest := by
  unfold applyFieldChange modifyFailover modifyFailoverTest
  split_ifs <;> rfl

/-- A field write whose name is not a `Failover` field leaves the `Failover`
container untouched. -/
theorem applyFieldChange_failover (nic : Nic) (field v : String)
    (h : field ∉ failoverFields) :
    (applyFieldChange nic field v).failover = nic.failover := by
  unfold applyFieldChange modifyFailover modifyFailoverTest
  split_ifs <;> rfl

theorem foldl_applyFieldChange_nicIdentifier :
    ∀ (fcs : List (String × String × String)) (n : Nic),
      (fcs.foldl (fun n fc => applyFieldChange n fc.1 fc.2.2) n).nicIdentifier =
        n.nicIdentifier
  | [], _ => rfl
  | fc :: fcs, n => by
      rw [List.foldl_cons, foldl_applyFieldChange_nicIdentifier fcs,
        applyFieldChange_nicIdentifier]

theorem foldl_applyFieldChange_failoverTest :
    ∀ (fcs : List (String × String × String)) (n : Nic),
      (∀ fc ∈ fcs, fc.1 ∉ failoverTestFields) →
      (fcs.foldl (fun n fc => applyFieldChange n fc.1 fc.2.2) n).failoverTest =
        n.failoverTest
  | [], _, _ => rfl
  | fc :: fcs, n, h => by
      rw [List.foldl_cons,
        foldl_applyFieldChange_failoverTest fcs _ (fun x hx => h x (List.mem_cons_of_mem _ hx)),
        applyFieldChange_failoverTest n fc.1 fc.2.2 (h fc (List.mem_cons_self _ _))]

theorem foldl_applyFieldChange_failover :
    ∀ (fcs : List (String × String × String)) (n : Nic),
      (∀ fc ∈ fcs, fc.1 ∉ failoverFields) →
      (fcs.foldl (fun n fc => applyFieldChange n fc.1 fc.2.2) n).failover = n.failover
  | [], _, _ => rfl
  | fc :: fcs, n, h => by
      rw [List.foldl_cons,
        foldl_applyFieldChange_failover fcs _ (fun x hx => h x (List.mem_cons_of_mem _ hx)),
        applyFieldChange_failover n fc.1 fc.2.2 (h fc (List.mem_cons_self _ _))]

theorem patchNic_nicIdentifier (nic : Nic) (fcs : List (String × String × String)) :
    (patchNic nic fcs).nicIdentifier = nic.nicIdentifier := by
  unfold patchNic
  rw [foldl_applyFieldChange_nicIdentifier]
  split_ifs <;> rfl

/-- When no change names a `Failover Test` field, the patched NIC's
`FailoverTest` container is the original one, except that an absent container
has been materialized to the empty one. -/
theorem patchNic_failoverTest (nic : Nic) (fcs : List (String × String × String))
    (h : ∀ fc ∈ fcs, fc.1 ∉ failoverTestFields) :
    (patchNic nic fcs).failoverTest = Option.some (nic.failoverTest.getD {}) := by
  unfold patchNic
  rw [foldl_applyFieldChange_failoverTest _ _ h]
  cases hft : nic.failoverTest <;> split_ifs <;> simp_all

/-- When no change names a `Failover` field, the patched NIC's `Failover`
container is the original one, except that an absent container has been
materialized to the empty one. -/
theorem patchNic_failover (nic : Nic) (fcs : List (String × String × String))
    (h : ∀ fc ∈ fcs, fc.1 ∉ failoverFields) :
    (patchNic nic fcs).failover = Option.some (nic.failover.getD {}) := by
  unfold patchNic
  rw [foldl_applyFieldChange_failover _ _ h]
  cases hf : nic.failover <;> split_ifs <;> simp_all

/-- A one-VPG settings tree whose single NIC has a `Failover` container but
no `FailoverTest` container. -/
def c3vms : List Vm :=
  [{ vmIdentifier := "vm1",
     nics := [{ nicIdentifier := "nic1", failover := Option.some {},
                failoverTest := Option.none }] }]

/-- C3, counterexample: patching a Change Set that names only the
`Failover Network` field of the NIC also materializes the absent
`FailoverTest` container (lines 399-400 run unconditionally for every patched
NIC), so an unnamed sub-structure of the patched interface is not
byte-identical to its pre-patch value. -/
theorem c3_counterexample :
    patchVmList c3vms "vm1" "nic1" [("Failover Network", "", "net2")] =
      PatchOutcome.ok
        [{ vmIdentifier := "vm1",
           nics := [{ nicIdentifier := "nic1",
                      failover := Option.some { hypervisor :=
                        { networkIdentifier := Option.some "net2" } },
                      failoverTest := Option.some {} }] }] ∧
    ("Failover Network" : String) ∉ failoverTestFields ∧
    Option.some ({} : FailCfg) ≠ (Option.none : Option FailCfg) := by decide

/-- C3 (amended): applying a Change Set naming one identity mutates only that
identity's NIC — every other VM and NIC of the tree is the same object, and
the patched NIC keeps its identifier — and on the patched NIC itself the only
effect beyond the named fields is materialization: an absent `Failover` or
`FailoverTest` container becomes the empty container (even when the Change
Set does not name that role), while a present container of an unnamed role is
unchanged. -/
theorem c3_patch_frame :
    ∀ (vms : List Vm) (vm_id nic_id : String) (fcs : List (String × String × String))
      (vms' : List Vm),
      patchVmList vms vm_id nic_id fcs = PatchOutcome.ok vms' →
      ∃ preV vm postV preN n postN,
        vms = preV ++ vm :: postV ∧
        vm.nics = preN ++ n :: postN ∧
        vms' = preV ++ { vm with nics := preN ++ patchNic n fcs :: postN } :: postV ∧
        (∀ w ∈ preV, w.vmIdentifier ≠ vm_id) ∧ vm.vmIdentifier = vm_id ∧
        (∀ m ∈ preN, m.nicIdentifier ≠ nic_id) ∧ n.nicIdentifier = nic_id ∧
        (patchNic n fcs).nicIdentifier = n.nicIdentifier ∧
        ((∀ fc ∈ fcs, fc.1 ∉ failoverTestFields) →
          (patchNic n fcs).failoverTest = Option.some (n.failoverTest.getD {})) ∧
        ((∀ fc ∈ fcs, fc.1 ∉ failoverFields) →
          (patchNic n fcs).failover = Option.some (n.failover.getD {})) := by
  intro vms vm_id nic_id fcs vms' h
  obtain ⟨preV, vm, postV, nics', he, hpre, hv, hn, hl⟩ :=
    patchVmList_eq vm_id nic_id fcs vms vms' h
  obtain ⟨preN, n, postN, hne, hpreN, hnid, hnl⟩ := patchNicList_eq nic_id fcs vm.nics nics' hn
  exact ⟨preV, vm, postV, preN, n, postN, he, hne, by rw [hl, hnl], hpre, hv, hpreN, hnid,
    patchNic_nicIdentifier n fcs, fun hh => patchNic_failoverTest n fcs hh,
    fun hh => patchNic_failover n fcs hh⟩

/-- C3, witness: the frame at the concrete one-NIC tree. -/
theorem c3_patch_frame_witness :
    patchVmList c3vms "vm1" "nic1" [("Failover Network", "", "net2")] =
      PatchOutcome.ok
        [{ vmIdentifier := "vm1",
           nics := [{ nicIdentifier := "nic1",
                      failover := Option.some { hypervisor :=
                        { networkIdentifier := Option.some "net2" } },
                      failoverTest := Option.some {} }] }] ∧
    (∃ preV vm postV preN n postN,
        c3vms = preV ++ vm :: postV ∧
        vm.nics = preN ++ n :: postN ∧
        [{ vmIdentifier := "vm1",
           nics := [{ nicIdentifier := "nic1",
                      failover := Option.some { hypervisor :=
                        { networkIdentifier := Option.some "net2" } },
                      failoverTest := Option.some {} }] }] =
          preV ++ { vm with nics := preN ++ patchNic n [("Failover Network", "", "net2")] :: postN } :: postV ∧
        (∀ w ∈ preV, w.vmIdentifier ≠ "vm1") ∧ vm.vmIdentifier = "vm1" ∧
        (∀ m ∈ preN, m.nicIdentifier ≠ "nic1") ∧ n.nicIdentifier = "nic1" ∧
        (patchNic n [("Failover Network", "", "net2")]).nicIdentifier = n.nicIdentifier ∧
        ((∀ fc ∈ [(("Failover Network" : String), ("" : String), ("net2" : String))],
            fc.1 ∉ failoverTestFields) →
          (patchNic n [("Failover Network", "", "net2")]).failoverTest =
            Option.some (n.failoverTest.getD {})) ∧
        ((∀ fc ∈ [(("Failover Network" : String), ("" : String), ("net2" : String))],
            fc.1 ∉ failoverFields) →
          (patchNic n [("Failover Network", "", "net2")]).failover =
            Option.some (n.failover.getD {}))) :=
  ⟨by decide,
    c3_patch_frame c3vms "vm1" "nic1" [("Failover Network", "", "net2")]
      [{ vmIdentifier := "vm1",
         nics := [{ nicIdentifier := "nic1",
                    failover := Option.some { hypervisor :=
                      { networkIdentifier := Option.some "net2" } },
                    failoverTest := Option.some {} }] }] (by decide)⟩

/-! ### Claim C7: the address-field writes -/

/-- Effect of the `Failover` address-write block on `IpConfig`: materialized
if absent, then the one named field written. -/
theorem addrWriteFailover_ipConfig (h : HypCfg) (field v : String) :
    (addrWriteFailover h field v).ipConfig =
      Option.some (
        let c := h.ipConfig.getD defaultIpConfig
        if field = "Failover IP" then { c with staticIp := writeAddr v }
        else if field = "Failover Subnet" then { c with subnetMask := Option.some (writeSubnet v) }
        else if field = "Failover Gateway" then { c with gateway := writeAddr v }
        else if field = "Failover DNS1" then { c with primaryDns := writeAddr v }
        else if field = "Failover DNS2" then { c with secondaryDns := writeAddr v }
        else c) := by
  unfold addrWriteFailover
  simp only [materializeIp_ipConfig, Option.getD_some]

/-- Effect of the `Failover Test` address-write block on `IpConfig`. -/
theorem addrWriteFailoverTest_ipConfig (h : HypCfg) (field v : String) :
    (addrWriteFailoverTest h field v).ipConfig =
      Option.some (
        let c := h.ipConfig.getD defaultIpConfig
        if field = "Failover Test IP" then { c with staticIp := writeAddr v }
        else if field = "Failover Test Subnet" then { c with subnetMask := Option.some (writeSubnet v) }
        else if field = "Failover Test Gateway" then { c with gateway := writeAddr v }
        else if field = "Failover Test DNS1" then { c with primaryDns := writeAddr v }
        else if field = "Failover Test DNS2" then { c with secondaryDns := writeAddr v }
        else c) := by
  unfold addrWriteFailoverTest
  simp only [materializeIp_ipConfig, Option.getD_some]

theorem afc_network (nic : Nic) (v : String) :
    nicFailoverHyp (applyFieldChange nic "Failover Network" v) = { nicFailoverHyp nic with networkIdentifier := Option.some v } := rfl

theorem afc_sric (nic : Nic) (v : String) :
    nicFailoverHyp (applyFieldChange nic "Failover ShouldReplaceIpConfiguration" v) = { nicFailoverHyp nic with shouldReplaceIpConfiguration := Option.some (normalizeStr v == "true") } := rfl

theorem afc_dhcp (nic : Nic) (v : String) :
    nicFailoverHyp (applyFieldChange nic "Failover DHCP" v) = dhcpWrite (nicFailoverHyp nic) v := rfl

theorem afc_ip (nic : Nic) (v : String) :
    nicFailoverHyp (applyFieldChange nic "Failover IP" v) = addrWriteFailover (nicFailoverHyp nic) "Failover IP" v := rfl

theorem afc_subnet (nic : Nic) (v : String) :
    nicFailoverHyp (applyFieldChange nic "Failover Subnet" v) = addrWriteFailover (nicFailoverHyp nic) "Failover Subnet" v := rfl

theorem afc_gateway (nic : Nic) (v : String) :
    nicFailoverHyp (applyFieldChange nic "Failover Gateway" v) = addrWriteFailover (nicFailoverHyp nic) "Failover Gateway" v := rfl

theorem afc_dns1 (nic : Nic) (v : String) :
    nicFailoverHyp (applyFieldChange nic "Failover DNS1" v) = addrWriteFailover (nicFailoverHyp nic) "Failover DNS1" v := rfl

theorem afc_dns2 (nic : Nic) (v : String) :
    nicFailoverHyp (applyFieldChange nic "Failover DNS2" v) = addrWriteFailover (nicFailoverHyp nic) "Failover DNS2" v := rfl

theorem afcT_network (nic : Nic) (v : String) :
    nicFailoverTestHyp (applyFieldChange nic "Failover Test Network" v) = { nicFailoverTestHyp nic with networkIdentifier := Option.some v } := rfl

theorem afcT_sric (nic : Nic) (v : String) :
    nicFailoverTestHyp (applyFieldChange nic "Failover Test ShouldReplaceIpConfiguration" v) = { nicFailoverTestHyp nic with shouldReplaceIpConfiguration := Option.some (normalizeStr v == "true") } := rfl

theorem afcT_dhcp (nic : Nic) (v : String) :
    nicFailoverTestHyp (applyFieldChange nic "Failover Test DHCP" v) = dhcpWrite (nicFailoverTestHyp nic) v := rfl

theorem afcT_ip (nic : Nic) (v : String) :
    nicFailoverTestHyp (applyFieldChange nic "Failover Test IP" v) = addrWriteFailoverTest (nicFailoverTestHyp nic) "Failover Test IP" v := rfl

theorem afcT_subnet (nic : Nic) (v : String) :
    nicFailoverTestHyp (applyFieldChange nic "Failover Test Subnet" v) = addrWriteFailoverTest (nicFailoverTestHyp nic) "Failover Test Subnet" v := rfl

theorem afcT_gateway (nic : Nic) (v : String) :
    nicFailoverTestHyp (applyFieldChange nic "Failover Test Gateway" v) = addrWriteFailoverTest (nicFailoverTestHyp nic) "Failover Test Gateway" v := rfl

theorem afcT_dns1 (nic : Nic) (v : String) :
    nicFailoverTestHyp (applyFieldChange nic "Failover Test DNS1" v) = addrWriteFailoverTest (nicFailoverTestHyp nic) "Failover Test DNS1" v := rfl

theorem afcT_dns2 (nic : Nic) (v : String) :
    nicFailoverTestHyp (applyFieldChange nic "Failover Test DNS2" v) = addrWriteFailoverTest (nicFailoverTestHyp nic) "Failover Test DNS2" v := rfl

/-- Patching any single field other than `Failover Subnet` leaves the
`Failover` subnet mask either unchanged or null — never the default. -/
theorem subnet_preserved_failover (nic : Nic) (field v : String)
    (hfs : field ≠ "Failover Subnet") :
    ((nicFailoverHyp (applyFieldChange nic field v)).ipConfig.getD defaultIpConfig).subnetMask
        = ((nicFailoverHyp nic).ipConfig.getD defaultIpConfig).subnetMask ∨
    ((nicFailoverHyp (applyFieldChange nic field v)).ipConfig.getD defaultIpConfig).subnetMask
        = Option.none := by
  by_cases hmem : field ∈ failoverFields
  · simp only [failoverFields, List.mem_cons, List.not_mem_nil, or_false] at hmem
    rcases hmem with rfl|rfl|rfl|rfl|rfl|rfl|rfl|rfl
    · left; rw [afc_network]
    · left; rw [afc_sric]
    · left; rw [afc_ip, addrWriteFailover_ipConfig]; simp
    · exact absurd rfl hfs
    · left; rw [afc_gateway, addrWriteFailover_ipConfig]; simp
    · left; rw [afc_dns1, addrWriteFailover_ipConfig]; simp
    · left; rw [afc_dns2, addrWriteFailover_ipConfig]; simp
    · rw [afc_dhcp, dhcpWrite_ipConfig]
      cases hb : (normalizeStr v == "true") with
      | false => left; simp [hb]
      | true => right; simp [hb, defaultIpConfig]
  · left
    unfold nicFailoverHyp
    rw [applyFieldChange_failover nic field v hmem]

/-- Patching any single field other than `Failover Test Subnet` leaves the
`Failover Test` subnet mask either unchanged or null — never the default. -/
theorem subnet_preserved_failoverTest (nic : Nic) (field v : String)
    (hfs : field ≠ "Failover Test Subnet") :
    ((nicFailoverTestHyp (applyFieldChange nic field v)).ipConfig.getD defaultIpConfig).subnetMask
        = ((nicFailoverTestHyp nic).ipConfig.getD defaultIpConfig).subnetMask ∨
    ((nicFailoverTestHyp (applyFieldChange nic field v)).ipConfig.getD defaultIpConfig).subnetMask
        = Option.none := by
  by_cases hmem : field ∈ failoverTestFields
  · simp only [failoverTestFields, List.mem_cons, List.not_mem_nil, or_false] at hmem
    rcases hmem with rfl|rfl|rfl|rfl|rfl|rfl|rfl|rfl
    · left; rw [afcT_network]
    · left; rw [afcT_sric]
    · left; rw [afcT_ip, addrWriteFailoverTest_ipConfig]; simp
    · exact absurd rfl hfs
    · left; rw [afcT_gateway, addrWriteFailoverTest_ipConfig]; simp
    · left; rw [afcT_dns1, addrWriteFailoverTest_ipConfig]; simp
    · left; rw [afcT_dns2, addrWriteFailoverTest_ipConfig]; simp
    · rw [afcT_dhcp, dhcpWrite_ipConfig]
      cases hb : (normalizeStr v == "true") with
      | false => left; simp [hb]
      | true => right; simp [hb, defaultIpConfig]
  · left
    unfold nicFailoverTestHyp
    rw [applyFieldChange_failoverTest nic field v hmem]

/-- C7: every address-field write materializes the role's `ip_config` when
absent and writes the new value if non-empty, null otherwise — except the
subnet mask, whose empty new value is written as the default `255.255.255.0`;
and the subnet default is applied only when the subnet field itself is the
changed field: any other single-field write leaves the subnet mask unchanged
or null. -/
theorem c7_addr_write_spec :
    ∀ (nic : Nic) (field v : String),
      ((nicFailoverHyp (applyFieldChange nic "Failover IP" v)).ipConfig = Option.some { (nicFailoverHyp nic).ipConfig.getD defaultIpConfig with staticIp := writeAddr v }) ∧
      ((nicFailoverHyp (applyFieldChange nic "Failover Subnet" v)).ipConfig = Option.some { (nicFailoverHyp nic).ipConfig.getD defaultIpConfig with subnetMask := Option.some (writeSubnet v) }) ∧
      ((nicFailoverHyp (applyFieldChange nic "Failover Gateway" v)).ipConfig = Option.some { (nicFailoverHyp nic).ipConfig.getD defaultIpConfig with gateway := writeAddr v }) ∧
      ((nicFailoverHyp (applyFieldChange nic "Failover DNS1" v)).ipConfig = Option.some { (nicFailoverHyp nic).ipConfig.getD defaultIpConfig with primaryDns := writeAddr v }) ∧
      ((nicFailoverHyp (applyFieldChange nic "Failover DNS2" v)).ipConfig = Option.some { (nicFailoverHyp nic).ipConfig.getD defaultIpConfig with secondaryDns := writeAddr v }) ∧
      ((nicFailoverTestHyp (applyFieldChange nic "Failover Test IP" v)).ipConfig = Option.some { (nicFailoverTestHyp nic).ipConfig.getD defaultIpConfig with staticIp := writeAddr v }) ∧
      ((nicFailoverTestHyp (applyFieldChange nic "Failover Test Subnet" v)).ipConfig = Option.some { (nicFailoverTestHyp nic).ipConfig.getD defaultIpConfig with subnetMask := Option.some (writeSubnet v) }) ∧
      ((nicFailoverTestHyp (applyFieldChange nic "Failover Test Gateway" v)).ipConfig = Option.some { (nicFailoverTestHyp nic).ipConfig.getD defaultIpConfig with gateway := writeAddr v }) ∧
      ((nicFailoverTestHyp (applyFieldChange nic "Failover Test DNS1" v)).ipConfig = Option.some { (nicFailoverTestHyp nic).ipConfig.getD defaultIpConfig with primaryDns := writeAddr v }) ∧
      ((nicFailoverTestHyp (applyFieldChange nic "Failover Test DNS2" v)).ipConfig = Option.some { (nicFailoverTestHyp nic).ipConfig.getD defaultIpConfig with secondaryDns := writeAddr v }) ∧
      (field ∉ (["Failover Subnet", "Failover Test Subnet"] : List String) →
        (((nicFailoverHyp (applyFieldChange nic field v)).ipConfig.getD defaultIpConfig).subnetMask
            = ((nicFailoverHyp nic).ipConfig.getD defaultIpConfig).subnetMask ∨
         ((nicFailoverHyp (applyFieldChange nic field v)).ipConfig.getD defaultIpConfig).subnetMask
            = Option.none) ∧
        (((nicFailoverTestHyp (applyFieldChange nic field v)).ipConfig.getD defaultIpConfig).subnetMask
            = ((nicFailoverTestHyp nic).ipConfig.getD defaultIpConfig).subnetMask ∨
         ((nicFailoverTestHyp (applyFieldChange nic field v)).ipConfig.getD defaultIpConfig).subnetMask
            = Option.none)) := by
  intro nic field v
  refine ⟨?_, ?_, ?_, ?_, ?_, ?_, ?_, ?_, ?_, ?_, ?_⟩
  · rw [afc_ip, addrWriteFailover_ipConfig]; simp
  · rw [afc_subnet, addrWriteFailover_ipConfig]; simp
  · rw [afc_gateway, addrWriteFailover_ipConfig]; simp
  · rw [afc_dns1, addrWriteFailover_ipConfig]; simp
  · rw [afc_dns2, addrWriteFailover_ipConfig]; simp
  · rw [afcT_ip, addrWriteFailoverTest_ipConfig]; simp
  · rw [afcT_subnet, addrWriteFailoverTest_ipConfig]; simp
  · rw [afcT_gateway, addrWriteFailoverTest_ipConfig]; simp
  · rw [afcT_dns1, addrWriteFailoverTest_ipConfig]; simp
  · rw [afcT_dns2, addrWriteFailoverTest_ipConfig]; simp
  · intro hf
    simp only [List.mem_cons, List.not_mem_nil, or_false, not_or] at hf
    exact ⟨subnet_preserved_failover nic field v hf.1,
      subnet_preserved_failoverTest nic field v hf.2⟩

/-! ### Claim C8: lookup failures during patch application -/

/-- A one-VPG environment for the lookup-failure run. -/
def c8settings : VpgSettings :=
  { vms := [{ vmIdentifier := "vm1",
              nics := [{ nicIdentifier := "nic1", failover := Option.some {},
                         failoverTest := Option.some {} }] }] }

/-- The remote lookup: only `vpg1` exists. -/
def c8env : String → Option VpgSettings :=
  fun n => if n = "vpg1" then Option.some c8settings else Option.none

/-- A change whose VM identifier is not in the fetched settings. -/
def c8chMissing : NicChange :=
  { vpgName := "vpg1", vmIdentifier := "vmMissing", nicIdentifier := "nicX",
    vmName := "x", changes := [("Failover Network", "", "n")] }

/-- A change that resolves normally. -/
def c8chOk : NicChange :=
  { vpgName := "vpg1", vmIdentifier := "vm1", nicIdentifier := "nic1",
    vmName := "vmA", changes := [("Failover Network", "", "n2")] }

/-- C8, counterexample: the pass logs the missing VM at the point of failure,
skips it, continues with the remaining change and commits — and emits no
end-of-pass summary of skipped identities: the complete log of the run is the
in-loop error line followed by the commit line, and the run's last log entry
is the commit, not a summary naming the skipped identity. -/
theorem c8_counterexample :
    (update_vpg_settings c8env [c8chMissing, c8chOk]).2 =
      [LogEntry.vmNotFound "vpg1" "vmMissing", LogEntry.committed "vpg1"] ∧
    (update_vpg_settings c8env [c8chMissing, c8chOk]).2.getLast? =
      Option.some (LogEntry.committed "vpg1") := by decide

/-- C8 (amended): a lookup failure is fatal only for that identity's changes:
the failure is logged at the point it occurs, the identity is skipped
(settings unchanged by it), and the pass continues with all other identities
— at the change level for a missing VM or NIC, and at the group level for a
missing VPG; no end-of-pass summary of skipped identities is produced. -/
theorem c8_skip_and_continue :
    ∀ (vpg : String) (s : VpgSettings) (c : NicChange) (cs : List NicChange)
      (env : String → Option VpgSettings) (g : String × List NicChange)
      (rest : List (String × List NicChange)),
      (patchVmList s.vms c.vmIdentifier c.nicIdentifier c.changes = PatchOutcome.vmMissing →
        processVpg vpg s (c :: cs) =
          ((processVpg vpg s cs).1,
            LogEntry.vmNotFound vpg c.vmIdentifier :: (processVpg vpg s cs).2)) ∧
      (patchVmList s.vms c.vmIdentifier c.nicIdentifier c.changes = PatchOutcome.nicMissing →
        processVpg vpg s (c :: cs) =
          ((processVpg vpg s cs).1,
            LogEntry.nicNotFound c.vmIdentifier c.nicIdentifier :: (processVpg vpg s cs).2)) ∧
      (env g.1 = Option.none →
        processGroups env (g :: rest) =
          ((processGroups env rest).1,
            LogEntry.vpgNotFound g.1 :: (processGroups env rest).2)) := by
  intro vpg s c cs env g rest
  refine ⟨?_, ?_, ?_⟩
  · intro h
    simp only [processVpg, applyChange, h, Option.toList_some, List.singleton_append]
  · intro h
    simp only [processVpg, applyChange, h, Option.toList_some, List.singleton_append]
  · intro h
    simp only [processGroups, h]
